import Mathlib

/-!
Verification of the redstormv2 assessment orchestration engine.

This file shallowly embeds the parts of the source relevant to the
assessment lifecycle:

* `src/backend/agents/orchestrator.py` — `AgentOrchestrator.start_assessment`,
  `AgentOrchestrator.stop_assessment`, `AgentOrchestrator.get_assessment_status`;
* `src/backend/agents/base_agent.py` — `BaseAgent.send_update`;
* `src/backend/utils/file_storage.py` — `FileStorageManager._save_json`,
  `_load_json`, `create_assessment`, `update_assessment_status`,
  `get_assessment`, `_generate_id`.

Python values are modelled by the mutual inductive `PyVal`/`PyList`/`PyDict`:
JSON-representable data plus `datetime` objects (the only non-JSON values the
assessment code ever puts in a record).  `json.dump(data, default=str)` is
modelled at the value level by `dumpVal`, which is the identity on JSON data
and stringifies `datetime` objects; reading a stored file back returns the
dumped value unchanged (text-level JSON printing/parsing is bijective on this
value model and is not re-verified here).
-/

namespace RedStorm

mutual

inductive PyVal : Type where
  | null : PyVal
  | bool : Bool → PyVal
  | int : Int → PyVal
  | str : String → PyVal
  | list : PyList → PyVal
  | dict : PyDict → PyVal
  | datetime : Nat → PyVal
deriving DecidableEq

inductive PyList : Type where
  | nil : PyList
  | cons : PyVal → PyList → PyList
deriving DecidableEq

inductive PyDict : Type where
  | nil : PyDict
  | cons : String → PyVal → PyDict → PyDict
deriving DecidableEq

end

/-- Abstraction of the text produced by Python `str(datetime_object)`; the
claims depend only on the result being a string, never on its exact shape. -/
def dtStr (t : Nat) : String := "1970-01-01 00:00:" ++ toString t

mutual

/-- Value-level model of `json.dump(data, default=str)` (`_save_json`,
`file_storage.py` line 43): JSON values are written as themselves, while a
non-serializable object (a `datetime`) is replaced by `str(obj)`. -/
def dumpVal : PyVal → PyVal
  | .null => .null
  | .bool b => .bool b
  | .int n => .int n
  | .str s => .str s
  | .list xs => .list (dumpList xs)
  | .dict fs => .dict (dumpDict fs)
  | .datetime t => .str (dtStr t)

def dumpList : PyList → PyList
  | .nil => .nil
  | .cons v r => .cons (dumpVal v) (dumpList r)

def dumpDict : PyDict → PyDict
  | .nil => .nil
  | .cons k v r => .cons k (dumpVal v) (dumpDict r)

end

mutual

/-- A value is JSON-representable when it contains no `datetime` object. -/
def isJson : PyVal → Bool
  | .null => true
  | .bool _ => true
  | .int _ => true
  | .str _ => true
  | .list xs => isJsonList xs
  | .dict fs => isJsonDict fs
  | .datetime _ => false

def isJsonList : PyList → Bool
  | .nil => true
  | .cons v r => isJson v && isJsonList r

def isJsonDict : PyDict → Bool
  | .nil => true
  | .cons _ v r => isJson v && isJsonDict r

end

mutual

theorem dumpVal_eq_self : ∀ v : PyVal, isJson v = true → dumpVal v = v
  | .null, _ => rfl
  | .bool _, _ => rfl
  | .int _, _ => rfl
  | .str _, _ => rfl
  | .list xs, h => by
      simp only [dumpVal]
      exact congrArg PyVal.list (dumpList_eq_self xs (by simpa [isJson] using h))
  | .dict fs, h => by
      simp only [dumpVal]
      exact congrArg PyVal.dict (dumpDict_eq_self fs (by simpa [isJson] using h))
  | .datetime t, h => by simp [isJson] at h

theorem dumpList_eq_self : ∀ xs : PyList, isJsonList xs = true → dumpList xs = xs
  | .nil, _ => rfl
  | .cons v r, h => by
      simp only [isJsonList, Bool.and_eq_true] at h
      simp only [dumpList]
      rw [dumpVal_eq_self v h.1, dumpList_eq_self r h.2]

theorem dumpDict_eq_self : ∀ fs : PyDict, isJsonDict fs = true → dumpDict fs = fs
  | .nil, _ => rfl
  | .cons k v r, h => by
      simp only [isJsonDict, Bool.and_eq_true] at h
      simp only [dumpDict]
      rw [dumpVal_eq_self v h.1, dumpDict_eq_self r h.2]

end

/-! ### Association-list primitives

Python `dict`s keyed by strings (the in-memory assessment registry, the
directory of JSON files) are modelled as insertion-ordered association
lists.  Assignment to an existing key replaces the value in place (as in
CPython, which keeps the key position); assignment to a fresh key appends. -/

/-- Assignment `d[k] = v` on a Python dict. -/
def aset {α β : Type} [DecidableEq α] : List (α × β) → α → β → List (α × β)
  | [], k, v => [(k, v)]
  | (k1, v1) :: r, k, v => if k1 = k then (k, v) :: r else (k1, v1) :: aset r k v

/-- Read `d.get(k)` on a Python dict. -/
def aget {α β : Type} [DecidableEq α] : List (α × β) → α → Option β
  | [], _ => none
  | (k1, v1) :: r, k => if k1 = k then some v1 else aget r k

/-- In-place mutation `d[k] = f(d[k])` of an existing key (a Python
`KeyError` on a missing key never occurs in the modelled runs, where the
key is always present; on a missing key this model is the identity). -/
def aupd {α β : Type} [DecidableEq α] : List (α × β) → α → (β → β) → List (α × β)
  | [], _, _ => []
  | (k1, v1) :: r, k, f => if k1 = k then (k1, f v1) :: r else (k1, v1) :: aupd r k f

@[simp] theorem aget_aset_self {α β : Type} [DecidableEq α]
    (l : List (α × β)) (k : α) (v : β) : aget (aset l k v) k = some v := by
  induction l with
  | nil => simp [aset, aget]
  | cons hd tl ih =>
    obtain ⟨k1, v1⟩ := hd
    by_cases h : k1 = k <;> simp [aset, aget, h, ih]

@[simp] theorem aupd_aset_self {α β : Type} [DecidableEq α]
    (l : List (α × β)) (k : α) (v : β) (f : β → β) :
    aupd (aset l k v) k f = aset l k (f v) := by
  induction l with
  | nil => simp [aset, aupd]
  | cons hd tl ih =>
    obtain ⟨k1, v1⟩ := hd
    by_cases h : k1 = k <;> simp [aset, aupd, h, ih]

@[simp] theorem keys_aupd {α β : Type} [DecidableEq α]
    (l : List (α × β)) (k : α) (f : β → β) :
    (aupd l k f).map Prod.fst = l.map Prod.fst := by
  induction l with
  | nil => simp [aupd]
  | cons hd tl ih =>
    obtain ⟨k1, v1⟩ := hd
    by_cases h : k1 = k <;> simp [aupd, h, ih]

theorem keys_aset_of_mem {α β : Type} [DecidableEq α]
    (l : List (α × β)) (k : α) (v : β) (h : aget l k ≠ none) :
    (aset l k v).map Prod.fst = l.map Prod.fst := by
  induction l with
  | nil => simp [aget] at h
  | cons hd tl ih =>
    obtain ⟨k1, v1⟩ := hd
    by_cases hk : k1 = k
    · simp [aset, hk]
    · simp [aget, hk] at h
      simp [aset, hk, ih h]

/-! ### Fields of a stored JSON record (`PyDict`) -/

/-- Assignment `record[k] = v` on the JSON record dict. -/
def PyDict.setD : PyDict → String → PyVal → PyDict
  | .nil, key, val => .cons key val .nil
  | .cons k v r, key, val =>
      if k = key then .cons k val r else .cons k v (r.setD key val)

/-- Read `record.get(k)` on the JSON record dict. -/
def PyDict.lookupD : PyDict → String → Option PyVal
  | .nil, _ => none
  | .cons k v r, key => if k = key then some v else r.lookupD key

@[simp] theorem PyDict.lookupD_setD_self :
    ∀ (d : PyDict) (k : String) (v : PyVal), (d.setD k v).lookupD k = some v
  | .nil, k, v => by simp [PyDict.setD, PyDict.lookupD]
  | .cons k1 v1 r, k, v => by
      by_cases h : k1 = k <;>
        simp [PyDict.setD, PyDict.lookupD, h, PyDict.lookupD_setD_self r k v]

theorem PyDict.lookupD_setD_ne :
    ∀ (d : PyDict) (k key : String) (v : PyVal), k ≠ key →
      (d.setD key v).lookupD k = d.lookupD k
  | .nil, k, key, v, h => by
      have hkk : ¬ key = k := fun hh => h hh.symm
      simp [PyDict.setD, PyDict.lookupD, hkk]
  | .cons k1 v1 r, k, key, v, h => by
      have hkk : ¬ key = k := fun hh => h hh.symm
      by_cases h1 : k1 = key
      · have hk1 : ¬ k1 = k := by rw [h1]; exact hkk
        simp [PyDict.setD, PyDict.lookupD, h1, hk1, hkk]
      · by_cases h2 : k1 = k
        · simp [PyDict.setD, PyDict.lookupD, h1, h2, h]
        · simp [PyDict.setD, PyDict.lookupD, h1, h2,
            PyDict.lookupD_setD_ne r k key v h]

theorem PyDict.lookupD_dumpDict :
    ∀ (d : PyDict) (k : String), (dumpDict d).lookupD k = (d.lookupD k).map dumpVal
  | .nil, k => by simp [dumpDict, PyDict.lookupD]
  | .cons k1 v1 r, k => by
      by_cases h : k1 = k <;>
        simp [dumpDict, PyDict.lookupD, h, PyDict.lookupD_dumpDict r k]

/-! ### FileStorageManager (`src/backend/utils/file_storage.py`)

The `data/assessments` directory is modelled as an association list from
assessment id to the stored JSON record.  `_save_json` serializes with
`json.dump(data, default=str)` (modelled by `dumpDict`); `_load_json`
returns the stored JSON record.  Timestamps and the uuid4 of
`_generate_id` come from the environment and are passed as parameters. -/

/-- The `data/assessments` directory: one JSON file per assessment id. -/
abbrev FileStore : Type := List (String × PyDict)

/-- Model of `_save_json` on an assessment record file:
writes `json.dump(data, default=str)` to the file for `aid`. -/
def save_json (s : FileStore) (aid : String) (data : PyDict) : FileStore :=
  aset s aid (dumpDict data)

/-- Model of `_load_json`: returns the parsed JSON record, or `None` when the file
does not exist. -/
def load_json (s : FileStore) (aid : String) : Option PyDict :=
  aget s aid

/-- Model of `get_assessment(assessment_id)`: a pure read — it returns `_load_json`
of the record file and performs no write, so the store is returned
unchanged. -/
def get_assessment (s : FileStore) (aid : String) : Option PyDict × FileStore :=
  (load_json s aid, s)

/-- Model of `create_assessment(assessment_data)` (`file_storage.py` lines 60-75):
takes the id from the data or generates one (`_generate_id`, a uuid4,
supplied here as the parameter `genId`), stamps `assessment_id`,
`created_at` and `updated_at`, and saves the record.  Returns the new
store and the id. -/
def create_assessment (s : FileStore) (data : PyDict) (genId ts : String) :
    FileStore × String :=
  let aid := match data.lookupD "assessment_id" with
    | some (.str x) => x
    | _ => genId
  let data := data.setD "assessment_id" (.str aid)
  let data := data.setD "created_at" (.str ts)
  let data := data.setD "updated_at" (.str ts)
  (save_json s aid data, aid)

/-- Model of `update_assessment_status(assessment_id, status, current_phase=None,
results=None)` (`file_storage.py` lines 77-100): loads the record
(raising `ValueError` when missing or falsy), sets `status` and
`updated_at`, overwrites `current_phase` when the argument is truthy, and
assigns `assessment["results"] = results` — wholesale replacement of the
results dict — when the argument is truthy; then saves.  Python
truthiness: `None` and the empty string / empty dict are falsy. -/
def update_assessment_status (s : FileStore) (aid status : String)
    (current_phase : Option String) (results : Option PyDict) (ts : String) :
    Except String FileStore :=
  match load_json s aid with
  | none => .error ("Assessment " ++ aid ++ " not found")
  | some a =>
    if a = .nil then .error ("Assessment " ++ aid ++ " not found")
    else
      let a := a.setD "status" (.str status)
      let a := a.setD "updated_at" (.str ts)
      let a := match current_phase with
        | some cp => if cp = "" then a else a.setD "current_phase" (.str cp)
        | none => a
      let a := match results with
        | some r => if r = PyDict.nil then a else a.setD "results" (.dict r)
        | none => a
      .ok (save_json s aid a)

/-! ### AgentOrchestrator (`src/backend/agents/orchestrator.py`)

The in-memory registry `self.active_assessments` maps assessment ids to
record dicts; the record dict created on line 28 has exactly the keys
`target`, `client_id`, `status`, `current_phase`, `results`, `start_time`
and is modelled by the structure `Assessment` (the `end_time` field of the
model is `Option Nat` and stands for the presence of an `end_time` key,
which the source never writes, so it is `none` throughout).

`start_assessment` is an `async` coroutine running on the asyncio event
loop.  Control can pass to other tasks (a second connection's handler
delivering `stop_assessment`, for instance) exactly at its `await`
expressions.  The model therefore numbers the awaits of a run (`awaits`
in `RunState`) and takes a schedule `Env.stops`: `stops n = true` means a
`stop_assessment(client_id)` call is processed at the suspension point
right after await number `n` completes.

Each `websocket_manager.send_personal_message` call may raise (the
transport is external); `Env.pub n = some e` means the run's `n`-th send
raises an exception rendered as `e`, and `none` means it is delivered.
`agent.execute(target, options)` is `Env.adapters phase target`: either a
returned results payload or a raised exception. -/

/-- One entry of `self.active_assessments` (orchestrator.py lines 28-35). -/
structure Assessment : Type where
  target : String
  client_id : String
  status : String
  current_phase : String
  results : PyDict
  start_time : Nat
  end_time : Option Nat := none
deriving DecidableEq

/-- The messages sent through `websocket_manager.send_personal_message`
by `start_assessment`, with their payload fields.  The source has no
`phase_error` message: on any exception it sends `assessment_error`. -/
inductive Event : Type where
  | assessment_started (assessment_id target : String) (phases : List String)
  | phase_started (phase assessment_id : String)
  | phase_completed (phase : String) (results : PyVal) (assessment_id : String)
  | assessment_completed (assessment_id : String) (results : PyDict)
  | assessment_error (assessment_id : String) (error : String)
deriving DecidableEq

/-- The external world of one `start_assessment` run. -/
structure Env : Type where
  adapters : String → String → Except String PyVal
  pub : Nat → Option String
  stops : Nat → Bool

/-- Observable state of a run: the registry, the delivered messages in
order, the phases whose adapter was invoked, and the send / await
counters. -/
structure RunState : Type where
  reg : List (String × Assessment)
  events : List Event
  calls : List String
  sends : Nat
  awaits : Nat
deriving DecidableEq

/-- The hard-coded phase list (orchestrator.py lines 44 and 50). -/
def phasesList : List String :=
  ["reconnaissance", "scanning", "vulnerability", "exploitation"]

/-- Model of `stop_assessment(client_id)` (orchestrator.py lines 107-112):
scan `active_assessments` in insertion order; the first entry whose
`client_id` matches and whose `status` is exactly `"running"` gets
`status = "stopped"`, then `break`.  No match leaves the registry
unchanged. -/
def stop_assessment (reg : List (String × Assessment)) (cid : String) :
    List (String × Assessment) :=
  match reg with
  | [] => []
  | (aid, a) :: r =>
    if a.client_id = cid ∧ a.status = "running" then
      (aid, { a with status := "stopped" }) :: r
    else
      (aid, a) :: stop_assessment r cid

/-- Model of `get_assessment_status(assessment_id)` (lines 114-116):
`self.active_assessments.get(assessment_id)`, a pure read. -/
def get_assessment_status (reg : List (String × Assessment)) (aid : String) :
    Option Assessment :=
  aget reg aid

/-- Book-keeping for one completed `await`: bump the counter and, when
the schedule places a `stop_assessment(cid)` message at this suspension
point, apply it. -/
def noteAwait (env : Env) (cid : String) (s : RunState) : RunState :=
  let s2 : RunState := { s with awaits := s.awaits + 1 }
  if env.stops s.awaits then { s2 with reg := stop_assessment s2.reg cid } else s2

/-- One `await websocket_manager.send_personal_message(json.dumps(e), cid)`:
either the message is delivered and appended to the trace, or the send
raises and the exception string is returned; the send and await counters
advance either way. -/
def sendEvent (env : Env) (cid : String) (e : Event) (s : RunState) :
    RunState × Option String :=
  match env.pub s.sends with
  | none =>
      (noteAwait env cid { s with events := s.events ++ [e], sends := s.sends + 1 },
       none)
  | some err =>
      (noteAwait env cid { s with sends := s.sends + 1 }, some err)

/-- The `for phase in phases:` loop of `start_assessment` (lines 52-83):
set `current_phase`, send `phase_started`, run the agent, record its
result under `results[phase]`, send `phase_completed`; any raised
exception aborts the loop and is handed to the `except` block. -/
def runPhases (env : Env) (target cid aid : String) :
    List String → RunState → RunState × Option String
  | [], s => (s, none)
  | phase :: rest, s =>
    let s : RunState :=
      { s with reg := aupd s.reg aid (fun a => { a with current_phase := phase }) }
    match sendEvent env cid (.phase_started phase aid) s with
    | (s, some e) => (s, some e)
    | (s, none) =>
      let s : RunState := { s with calls := s.calls ++ [phase] }
      match env.adapters phase target with
      | .error e => (noteAwait env cid s, some e)
      | .ok res =>
        let s := noteAwait env cid s
        let s : RunState :=
          { s with
            reg := aupd s.reg aid (fun a => { a with results := a.results.setD phase res }) }
        match sendEvent env cid (.phase_completed phase res aid) s with
        | (s, some e) => (s, some e)
        | (s, none) => runPhases env target cid aid rest s

/-- The `except Exception as e:` block (lines 96-105): set
`status = "error"` and send `assessment_error` with `str(e)`; if that
send itself raises, the exception escapes `start_assessment`. -/
def handleError (env : Env) (cid aid e : String) (s : RunState) :
    RunState × Option String :=
  let s : RunState :=
    { s with reg := aupd s.reg aid (fun a => { a with status := "error" }) }
  sendEvent env cid (.assessment_error aid e) s

/-- The id computed on line 26:
`assessment_id = f"(client_id)_(int(datetime.now().timestamp()))"` —
the client id joined to the whole-second Unix timestamp. -/
def assessmentId (cid : String) (now : Nat) : String :=
  cid ++ "_" ++ toString now

/-- Lines 26-35 of `start_assessment`: the synchronous prefix that
computes the id and installs the fresh record — born with
`status = "running"` and `current_phase = "reconnaissance"` — in
`active_assessments`.  Returns the new registry and the id. -/
def createRecord (reg : List (String × Assessment)) (target cid : String)
    (now : Nat) : List (String × Assessment) × String :=
  let aid := assessmentId cid now
  (aset reg aid
    { target := target, client_id := cid, status := "running",
      current_phase := "reconnaissance", results := PyDict.nil,
      start_time := now },
   aid)

/-- The `results` field read on line 91 for the `assessment_completed`
payload. -/
def getResults (reg : List (String × Assessment)) (aid : String) : PyDict :=
  match aget reg aid with
  | some a => a.results
  | none => PyDict.nil

/-- Model of `start_assessment(target, client_id, websocket_manager)`
(orchestrator.py lines 24-105): create the record, send
`assessment_started`, run the phase loop, then set `status = "completed"`
and send `assessment_completed` with the accumulated results; any raised
exception is handled by `handleError`.  The first component is the final
observable state; the second is an exception escaping the coroutine
(possible only when the `except` block's own send raises). -/
def start_assessment (env : Env) (target cid : String) (now : Nat)
    (reg : List (String × Assessment)) : RunState × Option String :=
  let p := createRecord reg target cid now
  let aid := p.2
  let s : RunState := { reg := p.1, events := [], calls := [], sends := 0, awaits := 0 }
  match sendEvent env cid (.assessment_started aid target phasesList) s with
  | (s, some e) => handleError env cid aid e s
  | (s, none) =>
    match runPhases env target cid aid phasesList s with
    | (s, some e) => handleError env cid aid e s
    | (s, none) =>
      let s : RunState :=
        { s with reg := aupd s.reg aid (fun a => { a with status := "completed" }) }
      match sendEvent env cid (.assessment_completed aid (getResults s.reg aid)) s with
      | (s, some e) => handleError env cid aid e s
      | (s, none) => (s, none)

/-- The value the caller of `await orchestrator.start_assessment(...)`
receives: the coroutine body has no `return` statement, so it is `None`
— in particular it is never the assessment id. -/
def start_assessment_value : Option String := none

/-- Model of `BaseAgent.send_update` (base_agent.py lines 24-40): when a
websocket manager and client id are present, the send is attempted and
any exception is caught and turned into a warning log line; otherwise the
update is logged.  The result is the list of log lines — the function
never lets a transport failure escape, which the `Except`-free result
type of the `.ok` value makes explicit. -/
def send_update (wsPresent : Bool) (transport : Except String Unit) :
    Except String (List String) :=
  if wsPresent then
    match transport with
    | .ok _ => .ok []
    | .error e => .ok ["Failed to send WebSocket update: " ++ e]
  else
    .ok ["Agent update logged"]

/-- Environment in which every adapter returns successfully (phase `p`
returns payload `f p`), every send is delivered, and no stop message
arrives. -/
def okEnv (f : String → PyVal) : Env :=
  { adapters := fun ph _ => .ok (f ph), pub := fun _ => none, stops := fun _ => false }

/-- Environment in which every adapter returns successfully and every send
is delivered, and a `stop_assessment(client_id)` message is processed at
the suspension point right after await number `n`. -/
def stopEnv (f : String → PyVal) (n : Nat) : Env :=
  { adapters := fun ph _ => .ok (f ph), pub := fun _ => none,
    stops := fun k => k == n }

/-- Environment in which the `"scanning"` agent raises the exception `e`
while every other adapter succeeds; all sends are delivered. -/
def failEnv (f : String → PyVal) (e : String) : Env :=
  { adapters := fun ph _ => if ph = "scanning" then .error e else .ok (f ph),
    pub := fun _ => none, stops := fun _ => false }

/-- Environment in which every adapter succeeds but the run's send number
`n` raises the exception `e` (all other sends are delivered). -/
def pubFailEnv (f : String → PyVal) (e : String) (n : Nat) : Env :=
  { adapters := fun ph _ => .ok (f ph),
    pub := fun k => if k == n then some e else none, stops := fun _ => false }

/-- Number of registry entries for `cid` whose status is `"running"`. -/
def countRunning (reg : List (String × Assessment)) (cid : String) : Nat :=
  reg.countP (fun p => p.2.client_id == cid && p.2.status == "running")

/-- The results dict accumulated by a fully successful run whose phase `p`
returned `f p`. -/
def fullResults (f : String → PyVal) : PyDict :=
  PyDict.cons "reconnaissance" (f "reconnaissance")
    (PyDict.cons "scanning" (f "scanning")
      (PyDict.cons "vulnerability" (f "vulnerability")
        (PyDict.cons "exploitation" (f "exploitation") PyDict.nil)))

theorem aget_aset_ne {α β : Type} [DecidableEq α]
    (l : List (α × β)) (k1 k2 : α) (v : β) (h : k1 ≠ k2) :
    aget (aset l k2 v) k1 = aget l k1 := by
  induction l with
  | nil =>
    have h2 : ¬ k2 = k1 := fun hh => h hh.symm
    simp [aset, aget, h2]
  | cons hd tl ih =>
    obtain ⟨ka, va⟩ := hd
    by_cases hk : ka = k2
    · have h2 : ¬ k2 = k1 := fun hh => h hh.symm
      have h3 : ¬ ka = k1 := by rw [hk]; exact h2
      simp [aset, aget, hk, h2, h3]
    · by_cases hk1 : ka = k1 <;> simp [aset, aget, hk, hk1, ih, h]

/-! Registry keys are never rewritten once created: `stop_assessment` and
every update performed by the phase loop only modify fields of existing
entries. -/

theorem keys_stop_assessment (reg : List (String × Assessment)) (cid : String) :
    (stop_assessment reg cid).map Prod.fst = reg.map Prod.fst := by
  induction reg with
  | nil => simp [stop_assessment]
  | cons hd tl ih =>
    obtain ⟨aid, a⟩ := hd
    by_cases h : a.client_id = cid ∧ a.status = "running" <;>
      simp [stop_assessment, h, ih]

theorem keys_noteAwait (env : Env) (cid : String) (s : RunState) :
    (noteAwait env cid s).reg.map Prod.fst = s.reg.map Prod.fst := by
  unfold noteAwait
  by_cases h : env.stops s.awaits = true <;> simp [h, keys_stop_assessment]

theorem keys_sendEvent (env : Env) (cid : String) (e : Event) (s : RunState) :
    (sendEvent env cid e s).1.reg.map Prod.fst = s.reg.map Prod.fst := by
  unfold sendEvent
  cases h : env.pub s.sends <;> simp [keys_noteAwait]

theorem keys_runPhases (env : Env) (t cid aid : String) (ps : List String) :
    ∀ s : RunState,
      (runPhases env t cid aid ps s).1.reg.map Prod.fst = s.reg.map Prod.fst := by
  induction ps with
  | nil => intro s; simp [runPhases]
  | cons phase rest ih =>
    intro s
    simp only [runPhases]
    split
    next s1 e1 heq1 =>
      have h1 := congrArg (fun p => p.1.reg.map Prod.fst) heq1
      simp only [keys_sendEvent, keys_aupd] at h1
      simpa using h1.symm
    next s1 heq1 =>
      have h1 := congrArg (fun p => p.1.reg.map Prod.fst) heq1
      simp only [keys_sendEvent, keys_aupd] at h1
      split
      next e2 heq2 =>
        simpa [keys_noteAwait] using h1.symm
      next res heq2 =>
        split
        next s3 e3 heq3 =>
          have h3 := congrArg (fun p => p.1.reg.map Prod.fst) heq3
          simp only [keys_sendEvent, keys_aupd, keys_noteAwait] at h3
          simpa [h3.symm] using h1.symm
        next s3 heq3 =>
          have h3 := congrArg (fun p => p.1.reg.map Prod.fst) heq3
          simp only [keys_sendEvent, keys_aupd, keys_noteAwait] at h3
          simp [ih s3, h3.symm, h1.symm]

theorem keys_handleError (env : Env) (cid aid e : String) (s : RunState) :
    (handleError env cid aid e s).1.reg.map Prod.fst = s.reg.map Prod.fst := by
  simp [handleError, keys_sendEvent]

theorem keys_start_assessment (env : Env) (t cid : String) (now : Nat)
    (reg : List (String × Assessment)) :
    (start_assessment env t cid now reg).1.reg.map Prod.fst
      = ((createRecord reg t cid now).1).map Prod.fst := by
  simp only [start_assessment]
  split
  next s1 e1 heq1 =>
    have h1 := congrArg (fun p => p.1.reg.map Prod.fst) heq1
    simp only [keys_sendEvent] at h1
    simpa [keys_handleError] using h1.symm
  next s1 heq1 =>
    have h1 := congrArg (fun p => p.1.reg.map Prod.fst) heq1
    simp only [keys_sendEvent] at h1
    split
    next s2 e2 heq2 =>
      have h2 := congrArg (fun p => p.1.reg.map Prod.fst) heq2
      simp only [keys_runPhases] at h2
      simp [keys_handleError, h2.symm, h1.symm]
    next s2 heq2 =>
      have h2 := congrArg (fun p => p.1.reg.map Prod.fst) heq2
      simp only [keys_runPhases] at h2
      split
      next s3 e3 heq3 =>
        have h3 := congrArg (fun p => p.1.reg.map Prod.fst) heq3
        simp only [keys_sendEvent, keys_aupd] at h3
        simp [keys_handleError, h3.symm, h2.symm, h1.symm]
      next s3 heq3 =>
        have h3 := congrArg (fun p => p.1.reg.map Prod.fst) heq3
        simp only [keys_sendEvent, keys_aupd] at h3
        simp [h3.symm, h2.symm, h1.symm]

/-- Behaviour of `stop_assessment` on a one-entry registry, stated over
the `aset`-normal form the run proofs work with. -/
theorem stop_assessment_single (aid : String) (a : Assessment) (cid : String) :
    stop_assessment (aset ([] : List (String × Assessment)) aid a) cid =
      if a.client_id = cid ∧ a.status = "running" then
        aset [] aid { a with status := "stopped" }
      else aset [] aid a := by
  by_cases h : a.client_id = cid ∧ a.status = "running" <;>
    simp [aset, stop_assessment, h]

/-! ## Claims -/

/-- C1 counterexample: in a fully successful run the terminal record of
`start_assessment` has status `"completed"` but its `end_time` is not
set — the source never writes an `end_time` key — refuting the claim
that on completion status is set to `completed` AND `end_time` is set. -/
theorem C1_counterexample :
    (aget (start_assessment (okEnv (fun p => PyVal.str p)) "example.com" "clientA" 100 []).1.reg
        "clientA_100").map Assessment.status = some "completed" ∧
    (aget (start_assessment (okEnv (fun p => PyVal.str p)) "example.com" "clientA" 100 []).1.reg
        "clientA_100").map Assessment.end_time = some none := by
  decide

/-- C1 (amended): for a start of an assessment in which every phase
adapter succeeds and every send is delivered, the run terminates without
an escaping exception, emits exactly `assessment_started`, then
`phase_started` / `phase_completed` (with that phase's payload) for each
of the four hard-coded phases in order, then `assessment_completed` with
the full results map; the terminal record has status `"completed"` and
exactly one results entry per phase — but no `end_time` is ever set. -/
theorem C1_amended (f : String → PyVal) (target cid : String) (now : Nat)
    (reg : List (String × Assessment)) :
    (start_assessment (okEnv f) target cid now reg).2 = none ∧
    (start_assessment (okEnv f) target cid now reg).1.events =
      [Event.assessment_started (assessmentId cid now) target phasesList,
       Event.phase_started "reconnaissance" (assessmentId cid now),
       Event.phase_completed "reconnaissance" (f "reconnaissance") (assessmentId cid now),
       Event.phase_started "scanning" (assessmentId cid now),
       Event.phase_completed "scanning" (f "scanning") (assessmentId cid now),
       Event.phase_started "vulnerability" (assessmentId cid now),
       Event.phase_completed "vulnerability" (f "vulnerability") (assessmentId cid now),
       Event.phase_started "exploitation" (assessmentId cid now),
       Event.phase_completed "exploitation" (f "exploitation") (assessmentId cid now),
       Event.assessment_completed (assessmentId cid now) (fullResults f)] ∧
    aget (start_assessment (okEnv f) target cid now reg).1.reg (assessmentId cid now) =
      some { target := target, client_id := cid, status := "completed",
             current_phase := "exploitation", results := fullResults f,
             start_time := now, end_time := none } := by
  refine ⟨?_, ?_, ?_⟩ <;>
    simp [start_assessment, runPhases, sendEvent, noteAwait, handleError, okEnv,
      phasesList, createRecord, getResults, PyDict.setD, fullResults]

/-- C2: evaluation of the code at the failing input.  A
`stop_assessment(client_id)` message processed at the suspension point
right after phase 1's `phase_completed` send (await number 3) — i.e. at
the phase-1 / phase-2 boundary — has no effect on the run: the phase loop
never reads `status`, so all four adapters are still invoked, the event
trace is identical to the run without the stop, and the terminal record
has status `"completed"` (the transient `"stopped"` mark is overwritten)
with all four results, contradicting the specified checkpoint
behaviour. -/
theorem C2_stop_has_no_effect (f : String → PyVal) (target cid : String) (now : Nat) :
    (start_assessment (stopEnv f 3) target cid now []).1.calls = phasesList ∧
    aget (start_assessment (stopEnv f 3) target cid now []).1.reg (assessmentId cid now) =
      some { target := target, client_id := cid, status := "completed",
             current_phase := "exploitation", results := fullResults f,
             start_time := now, end_time := none } ∧
    (start_assessment (stopEnv f 3) target cid now []).1.events =
      (start_assessment (okEnv f) target cid now []).1.events := by
  refine ⟨?_, ?_, ?_⟩ <;>
    simp [start_assessment, runPhases, sendEvent, noteAwait, handleError, okEnv,
      stopEnv, stop_assessment_single, phasesList, createRecord, getResults,
      PyDict.setD, fullResults]

/-- C5 counterexample: the record installed by the synchronous prefix of
`start_assessment` is born with status `"running"` — no record with
status `"created"` is ever persisted; the coroutine returns `None`, not
the assessment id; and by the time it returns, every phase has already
executed (the call is not fire-and-forget). -/
theorem C5_counterexample :
    (aget ((createRecord [] "example.com" "clientA" 100).1) "clientA_100").map
        Assessment.status = some "running" ∧
    start_assessment_value = none ∧
    (start_assessment (okEnv (fun p => PyVal.str p)) "example.com" "clientA" 100 []).1.calls
      = phasesList := by
  refine ⟨by decide, rfl, by decide⟩

/-- C5 (amended): `start_assessment` installs the new record directly
with status `"running"` (there is no `"created"` stage), executes all
phases to completion inside the call — the caller's `await` returns only
after the run has finished, with every adapter already invoked — and
returns `None` rather than the assessment identifier; the id is
observable only through the emitted events and the registry. -/
theorem C5_amended (f : String → PyVal) (target cid : String) (now : Nat)
    (reg : List (String × Assessment)) :
    aget ((createRecord reg target cid now).1) (assessmentId cid now) =
      some { target := target, client_id := cid, status := "running",
             current_phase := "reconnaissance", results := PyDict.nil,
             start_time := now, end_time := none } ∧
    start_assessment_value = none ∧
    (start_assessment (okEnv f) target cid now reg).1.calls = phasesList := by
  refine ⟨?_, rfl, ?_⟩ <;>
    simp [start_assessment, runPhases, sendEvent, noteAwait, handleError, okEnv,
      phasesList, createRecord, getResults, PyDict.setD]

/-- C8 counterexample: the terminal record of a fully successful run has
status `"completed"` while `current_phase` is still `"exploitation"`,
refuting the claim that `current_phase` is empty whenever the status is
not `running`. -/
theorem C8_counterexample :
    (aget (start_assessment (okEnv (fun p => PyVal.str p)) "example.com" "clientA" 100 []).1.reg
        "clientA_100").map Assessment.status = some "completed" ∧
    (aget (start_assessment (okEnv (fun p => PyVal.str p)) "example.com" "clientA" 100 []).1.reg
        "clientA_100").map Assessment.current_phase = some "exploitation" := by
  decide

/-- C8 (amended): while the assessment is running, `current_phase` is an
element of the phase list — the record is created with status
`"running"` and `current_phase = "reconnaissance"`, and the loop only
ever writes phase names into it — but terminal statuses retain the last
phase written instead of clearing it: a completed run ends with
`current_phase = "exploitation"`, and a run whose scanning adapter raised
ends with status `"error"` and `current_phase = "scanning"`. -/
theorem C8_amended (f : String → PyVal) (e target cid : String) (now : Nat)
    (reg : List (String × Assessment)) :
    ((aget ((createRecord reg target cid now).1) (assessmentId cid now)).map
        Assessment.status = some "running" ∧
     (aget ((createRecord reg target cid now).1) (assessmentId cid now)).map
        Assessment.current_phase = some "reconnaissance" ∧
     "reconnaissance" ∈ phasesList) ∧
    ((aget (start_assessment (okEnv f) target cid now reg).1.reg (assessmentId cid now)).map
        Assessment.status = some "completed" ∧
     (aget (start_assessment (okEnv f) target cid now reg).1.reg (assessmentId cid now)).map
        Assessment.current_phase = some "exploitation" ∧
     "exploitation" ∈ phasesList) ∧
    ((aget (start_assessment (failEnv f e) target cid now reg).1.reg (assessmentId cid now)).map
        Assessment.status = some "error" ∧
     (aget (start_assessment (failEnv f e) target cid now reg).1.reg (assessmentId cid now)).map
        Assessment.current_phase = some "scanning" ∧
     "scanning" ∈ phasesList) := by
  refine ⟨⟨?_, ?_, ?_⟩, ⟨?_, ?_, ?_⟩, ⟨?_, ?_, ?_⟩⟩ <;>
    simp [start_assessment, runPhases, sendEvent, noteAwait, handleError, okEnv,
      failEnv, phasesList, createRecord, getResults, PyDict.setD]

/-- C3 counterexample: starting twice for the same client while the first
assessment is still running produces two `"running"` registry entries for
that client and raises no error — `start_assessment` performs no
concurrency check and `ConcurrencyLimitExceeded` exists nowhere in the
source.  The state is reachable: the first start's synchronous prefix
(lines 26-35) runs, the task suspends at its first `await`, and a second
handler (e.g. a second connection with the same client id) runs the
prefix again one second later. -/
theorem C3_counterexample :
    countRunning
      ((createRecord ((createRecord [] "example.com" "clientA" 100).1)
        "example.com" "clientA" 101).1) "clientA" = 2 := by
  decide

/-- C3 (amended): `start_assessment` never fails and never checks for an
existing running assessment: a second start for a client whose first
assessment is still running also succeeds, and whenever the two generated
ids differ (i.e. the starts fall in different whole seconds) the registry
holds two `"running"` assessments for that client at once; a new start
also succeeds unconditionally after a previous assessment reached a
terminal status, since the creation prefix is total. -/
theorem C3_amended (t1 t2 cid : String) (n1 n2 : Nat)
    (reg : List (String × Assessment))
    (hid : assessmentId cid n1 ≠ assessmentId cid n2) :
    countRunning
      ((createRecord ((createRecord [] t1 cid n1).1) t2 cid n2).1) cid = 2 ∧
    aget ((createRecord reg t1 cid n1).1) (assessmentId cid n1) =
      some { target := t1, client_id := cid, status := "running",
             current_phase := "reconnaissance", results := PyDict.nil,
             start_time := n1, end_time := none } := by
  constructor
  · simp [createRecord, countRunning, aset, hid]
  · simp [createRecord]

/-- C3 witness. -/
theorem C3_witness :
    countRunning
      ((createRecord ((createRecord [] "a.example" "c1" 0).1) "b.example" "c1" 1).1)
      "c1" = 2 ∧
    aget ((createRecord [] "a.example" "c1" 0).1) (assessmentId "c1" 0) =
      some { target := "a.example", client_id := "c1", status := "running",
             current_phase := "reconnaissance", results := PyDict.nil,
             start_time := 0, end_time := none } :=
  C3_amended "a.example" "b.example" "c1" 0 1 [] (by decide)

/-- C4 counterexample: when the scanning adapter raises, no entry at all
is stored under `results["scanning"]` — refuting the claim that a
structured error entry is stored under the failing phase — and the final
status is `"error"`. -/
theorem C4_counterexample :
    (aget (start_assessment (failEnv (fun p => PyVal.str p) "boom")
        "example.com" "clientA" 100 []).1.reg "clientA_100").map
      (fun a => a.results.lookupD "scanning") = some none ∧
    (aget (start_assessment (failEnv (fun p => PyVal.str p) "boom")
        "example.com" "clientA" 100 []).1.reg "clientA_100").map
      Assessment.status = some "error" := by
  decide

/-- C4 (amended): when the phase-2 (scanning) adapter raises, no adapter
for any later phase is invoked and no later-phase event is emitted, and
the earlier phase's result is left unchanged in `results`; but no entry
is stored under `results` for the failing phase, the event emitted is
`assessment_error` carrying only the exception text (the source has no
`phase_error` message), and the record's error information does not name
the failing phase — the final record has status `"error"` with exactly
the pre-failure results. -/
theorem C4_amended (f : String → PyVal) (e target cid : String) (now : Nat)
    (reg : List (String × Assessment)) :
    (start_assessment (failEnv f e) target cid now reg).2 = none ∧
    (start_assessment (failEnv f e) target cid now reg).1.calls =
      ["reconnaissance", "scanning"] ∧
    (start_assessment (failEnv f e) target cid now reg).1.events =
      [Event.assessment_started (assessmentId cid now) target phasesList,
       Event.phase_started "reconnaissance" (assessmentId cid now),
       Event.phase_completed "reconnaissance" (f "reconnaissance") (assessmentId cid now),
       Event.phase_started "scanning" (assessmentId cid now),
       Event.assessment_error (assessmentId cid now) e] ∧
    aget (start_assessment (failEnv f e) target cid now reg).1.reg (assessmentId cid now) =
      some { target := target, client_id := cid, status := "error",
             current_phase := "scanning",
             results := PyDict.cons "reconnaissance" (f "reconnaissance") PyDict.nil,
             start_time := now, end_time := none } := by
  refine ⟨?_, ?_, ?_, ?_⟩ <;>
    simp [start_assessment, runPhases, sendEvent, noteAwait, handleError, failEnv,
      phasesList, createRecord, getResults, PyDict.setD]

/-- C7 counterexample: when the orchestrator's own `phase_completed` send
for phase 1 raises (send number 2), the remaining phases do not execute
(only the reconnaissance adapter was ever invoked) and the assessment
ends with status `"error"` — not with the status and results of a run in
which every publish succeeded. -/
theorem C7_counterexample :
    (start_assessment (pubFailEnv (fun p => PyVal.str p) "ws down" 2)
        "example.com" "clientA" 100 []).1.calls = ["reconnaissance"] ∧
    (aget (start_assessment (pubFailEnv (fun p => PyVal.str p) "ws down" 2)
        "example.com" "clientA" 100 []).1.reg "clientA_100").map
      Assessment.status = some "error" := by
  decide

/-- C7 (amended): transport failures are caught and logged only inside
`BaseAgent.send_update`, whose result is always a normal return (never a
raised exception); the orchestrator's own event publishes are not
individually guarded — a raising publish is caught by the
assessment-level `except` handler, which marks the assessment `"error"`,
emits `assessment_error`, and skips all remaining phases, so the run does
not match an all-publishes-succeed run. -/
theorem C7_amended (f : String → PyVal) (e target cid : String) (now : Nat)
    (reg : List (String × Assessment)) :
    (∀ transport : Except String Unit,
      ∃ logs : List String, send_update true transport = Except.ok logs) ∧
    (start_assessment (pubFailEnv f e 2) target cid now reg).2 = none ∧
    (start_assessment (pubFailEnv f e 2) target cid now reg).1.calls =
      ["reconnaissance"] ∧
    (start_assessment (pubFailEnv f e 2) target cid now reg).1.events =
      [Event.assessment_started (assessmentId cid now) target phasesList,
       Event.phase_started "reconnaissance" (assessmentId cid now),
       Event.assessment_error (assessmentId cid now) e] ∧
    aget (start_assessment (pubFailEnv f e 2) target cid now reg).1.reg
        (assessmentId cid now) =
      some { target := target, client_id := cid, status := "error",
             current_phase := "reconnaissance",
             results := PyDict.cons "reconnaissance" (f "reconnaissance") PyDict.nil,
             start_time := now, end_time := none } := by
  refine ⟨?_, ?_, ?_, ?_, ?_⟩
  · intro transport
    cases transport with
    | ok u => exact ⟨[], rfl⟩
    | error e2 => exact ⟨["Failed to send WebSocket update: " ++ e2], rfl⟩
  all_goals
    simp [start_assessment, runPhases, sendEvent, noteAwait, handleError,
      pubFailEnv, phasesList, createRecord, getResults, PyDict.setD]

/-- A stored assessment record used by the C6 counterexample: it already
holds a phase result for `"reconnaissance"`. -/
def c6rec : PyDict :=
  PyDict.cons "assessment_id" (PyVal.str "a1")
    (PyDict.cons "status" (PyVal.str "running")
      (PyDict.cons "results"
        (PyVal.dict (PyDict.cons "reconnaissance" (PyVal.str "ok") PyDict.nil))
        PyDict.nil))

/-- C6 counterexample: updating an assessment that already stores a
`reconnaissance` phase result with a results delta containing only a
`scanning` entry replaces the whole `results` dict — the previously
written `reconnaissance` result is lost, refuting the claim that the
update is a merge that never drops a previously written phase result. -/
theorem C6_counterexample :
    (match update_assessment_status [("a1", c6rec)] "a1" "running" none
        (some (PyDict.cons "scanning" (PyVal.str "found") PyDict.nil)) "ts1" with
     | .ok s2 => (load_json s2 "a1").map (fun d => d.lookupD "results")
     | .error _ => none)
      = some (some (PyVal.dict (PyDict.cons "scanning" (PyVal.str "found") PyDict.nil))) := by
  decide

/-- C6 (amended): `update_assessment_status` always rewrites `status` and
`updated_at`; when a non-empty `results` argument is supplied it assigns
`assessment["results"] = results`, wholesale replacement of the stored
results dict (previously written phase entries survive only if the caller
included them in the argument); when the `results` argument is absent the
stored results are preserved; and every field other than `status`,
`updated_at`, `current_phase` and `results` is unchanged up to the
`default=str` serialization applied on save. -/
theorem C6_amended (s : FileStore) (aid status ts : String) (a r : PyDict)
    (ha : load_json s aid = some a) (hnil : a ≠ PyDict.nil) (hr : r ≠ PyDict.nil)
    (k : String) (hk1 : k ≠ "status") (hk2 : k ≠ "updated_at") (hk3 : k ≠ "results") :
    (∃ s2, update_assessment_status s aid status none (some r) ts = .ok s2 ∧
      (load_json s2 aid).map (fun d => d.lookupD "results")
        = some (some (PyVal.dict (dumpDict r))) ∧
      (load_json s2 aid).map (fun d => d.lookupD k)
        = some ((a.lookupD k).map dumpVal)) ∧
    (∃ s3, update_assessment_status s aid status none none ts = .ok s3 ∧
      (load_json s3 aid).map (fun d => d.lookupD "results")
        = some ((a.lookupD "results").map dumpVal)) := by
  have hupd : update_assessment_status s aid status none (some r) ts
      = .ok (save_json s aid
          (((a.setD "status" (PyVal.str status)).setD "updated_at"
            (PyVal.str ts)).setD "results" (PyVal.dict r))) := by
    simp [update_assessment_status, ha, hnil, hr]
  have hupd2 : update_assessment_status s aid status none none ts
      = .ok (save_json s aid
          ((a.setD "status" (PyVal.str status)).setD "updated_at" (PyVal.str ts))) := by
    simp [update_assessment_status, ha, hnil]
  refine ⟨⟨_, hupd, ?_, ?_⟩, ⟨_, hupd2, ?_⟩⟩
  · simp [load_json, save_json, PyDict.lookupD_dumpDict, dumpVal]
  · simp [load_json, save_json, PyDict.lookupD_dumpDict,
      PyDict.lookupD_setD_ne, hk1, hk2, hk3]
  · simp [load_json, save_json, PyDict.lookupD_dumpDict, PyDict.lookupD_setD_ne]

/-- C6 witness. -/
theorem C6_witness :
    (∃ s2, update_assessment_status [("a1", c6rec)] "a1" "completed" none
        (some (PyDict.cons "scanning" (PyVal.str "found") PyDict.nil)) "ts1" = .ok s2 ∧
      (load_json s2 "a1").map (fun d => d.lookupD "results")
        = some (some (PyVal.dict
            (dumpDict (PyDict.cons "scanning" (PyVal.str "found") PyDict.nil)))) ∧
      (load_json s2 "a1").map (fun d => d.lookupD "assessment_id")
        = some ((c6rec.lookupD "assessment_id").map dumpVal)) ∧
    (∃ s3, update_assessment_status [("a1", c6rec)] "a1" "completed" none none "ts1"
        = .ok s3 ∧
      (load_json s3 "a1").map (fun d => d.lookupD "results")
        = some ((c6rec.lookupD "results").map dumpVal)) :=
  C6_amended [("a1", c6rec)] "a1" "completed" "ts1" c6rec
    (PyDict.cons "scanning" (PyVal.str "found") PyDict.nil)
    (by decide) (by decide) (by decide)
    "assessment_id" (by decide) (by decide) (by decide)

/-- C9 counterexample: a record containing a native `datetime` value (as
the orchestrator's in-memory record does in its `start_time` field) does
not round-trip through the store — `json.dump(..., default=str)` writes
the datetime as a string, so the read-back record differs from the one
written. -/
theorem C9_counterexample :
    load_json
      (save_json [] "a1" (PyDict.cons "start_time" (PyVal.datetime 0) PyDict.nil)) "a1"
      ≠ some (PyDict.cons "start_time" (PyVal.datetime 0) PyDict.nil) := by
  decide

/-- C9 (amended): every assessment record all of whose values are
JSON-representable round-trips through the store write / read exactly,
field for field (hence also across update cycles, whose writes store
JSON records); records containing non-JSON values such as datetimes are
silently stringified by `default=str` and do not round-trip; and
`get_assessment` is read-only — it returns the loaded record and leaves
the store unchanged. -/
theorem C9_amended (s : FileStore) (aid : String) (d : PyDict)
    (h : isJsonDict d = true) :
    load_json (save_json s aid d) aid = some d ∧
    get_assessment s aid = (load_json s aid, s) := by
  exact ⟨by simp [load_json, save_json, dumpDict_eq_self d h], rfl⟩

/-- C9 witness. -/
theorem C9_witness :
    load_json (save_json [] "a1" (PyDict.cons "status" (PyVal.str "created") PyDict.nil))
        "a1" = some (PyDict.cons "status" (PyVal.str "created") PyDict.nil) ∧
    get_assessment [] "a1" = (load_json [] "a1", []) :=
  C9_amended [] "a1" (PyDict.cons "status" (PyVal.str "created") PyDict.nil) (by decide)

/-- C10 counterexample: two distinct start operations by the same client
in the same whole second (here: different targets, timestamp 100)
generate the same assessment id `"clientA_100"`, and the second creation
overwrites the first record — the registry holds a single entry whose
target is the second start's — refuting the claim that the generated
identifiers are always distinct and creation never overwrites. -/
theorem C10_counterexample :
    ((createRecord ((createRecord [] "t1.example" "clientA" 100).1)
        "t2.example" "clientA" 100).1).length = 1 ∧
    (aget ((createRecord ((createRecord [] "t1.example" "clientA" 100).1)
        "t2.example" "clientA" 100).1) "clientA_100").map Assessment.target
      = some "t2.example" := by
  decide

/-- C10 (amended): the assessment id is the client id joined to the
whole-second timestamp, so two creations for the same client in the same
second collide: the later creation overwrites the earlier record and adds
no registry entry; creations whose generated ids differ (different
second, here) leave both records present; and once created an id is never
changed — a full `start_assessment` run, under any adapter / publish /
stop behaviour, preserves the registry's key list as established at
creation. -/
theorem C10_amended (t1 t2 cid : String) (n1 n2 : Nat)
    (reg : List (String × Assessment)) (env : Env)
    (hid : assessmentId cid n1 ≠ assessmentId cid n2) :
    (((createRecord ((createRecord reg t1 cid n1).1) t2 cid n1).1).map Prod.fst
        = ((createRecord reg t1 cid n1).1).map Prod.fst ∧
     aget ((createRecord ((createRecord reg t1 cid n1).1) t2 cid n1).1)
        (assessmentId cid n1)
        = some { target := t2, client_id := cid, status := "running",
                 current_phase := "reconnaissance", results := PyDict.nil,
                 start_time := n1, end_time := none }) ∧
    (aget ((createRecord ((createRecord reg t1 cid n1).1) t2 cid n2).1)
        (assessmentId cid n1)
        = some { target := t1, client_id := cid, status := "running",
                 current_phase := "reconnaissance", results := PyDict.nil,
                 start_time := n1, end_time := none } ∧
     aget ((createRecord ((createRecord reg t1 cid n1).1) t2 cid n2).1)
        (assessmentId cid n2)
        = some { target := t2, client_id := cid, status := "running",
                 current_phase := "reconnaissance", results := PyDict.nil,
                 start_time := n2, end_time := none }) ∧
    (start_assessment env t1 cid n1 reg).1.reg.map Prod.fst
        = ((createRecord reg t1 cid n1).1).map Prod.fst := by
  refine ⟨⟨?_, ?_⟩, ⟨?_, ?_⟩, ?_⟩
  · simp only [createRecord]
    exact keys_aset_of_mem _ _ _ (by simp)
  · simp [createRecord]
  · simp [createRecord, aget_aset_ne _ _ _ _ hid]
  · simp [createRecord]
  · exact keys_start_assessment env t1 cid n1 reg

/-- C10 witness. -/
theorem C10_witness :
    (((createRecord ((createRecord [] "t1.example" "c1" 0).1) "t2.example" "c1" 0).1).map
        Prod.fst = ((createRecord [] "t1.example" "c1" 0).1).map Prod.fst ∧
     aget ((createRecord ((createRecord [] "t1.example" "c1" 0).1) "t2.example" "c1" 0).1)
        (assessmentId "c1" 0)
        = some { target := "t2.example", client_id := "c1", status := "running",
                 current_phase := "reconnaissance", results := PyDict.nil,
                 start_time := 0, end_time := none }) ∧
    (aget ((createRecord ((createRecord [] "t1.example" "c1" 0).1) "t2.example" "c1" 1).1)
        (assessmentId "c1" 0)
        = some { target := "t1.example", client_id := "c1", status := "running",
                 current_phase := "reconnaissance", results := PyDict.nil,
                 start_time := 0, end_time := none } ∧
     aget ((createRecord ((createRecord [] "t1.example" "c1" 0).1) "t2.example" "c1" 1).1)
        (assessmentId "c1" 1)
        = some { target := "t2.example", client_id := "c1", status := "running",
                 current_phase := "reconnaissance", results := PyDict.nil,
                 start_time := 1, end_time := none }) ∧
    (start_assessment (okEnv (fun p => PyVal.str p)) "t1.example" "c1" 0 []).1.reg.map
        Prod.fst = ((createRecord [] "t1.example" "c1" 0).1).map Prod.fst :=
  C10_amended "t1.example" "t2.example" "c1" 0 1 []
    (okEnv (fun p => PyVal.str p)) (by decide)

end RedStorm
